import Mathlib

set_option maxRecDepth 100000

/-!
# Verification of the caching and SQL-validation core of the Olist analytics chat tool

This file gives a shallow embedding, in Lean 4, of the request-scoped caching
and SQL-validation pipeline of the repository (a Next.js natural-language-to-SQL
analytics tool), and proves or refutes the frozen specification claims about it.

Embedded source artifacts:
* `src/src/lib/redis.ts` — cache store adapter (`getCachedData`, `setCachedData`,
  `clearCachePattern`), the client-side SQL validator `validateSQL`, and the
  greeting / general-question short circuit of `generateSQLFromQuestion`;
* `src/db/rpc-function.sql` — the server-side validation of `execute_sql`;
* `src/src/lib/gemini.ts` — `generateChatCacheKey`;
* `src/src/app/api/chat/route.ts` — the cache decision logic of the chat POST handler;
* the analytics query route (`unnamed/part_004`) — `generateCacheKey` and the
  analytics POST handler;
* `src/src/app/api/clear-cache/route.ts` — the DELETE handler and its local
  cursor-scan deletion loop `scanAndDelete`.

Strings are modelled as `List Char` internally (`String` at the boundaries).
JavaScript string operations (`trim`, `toLowerCase`, regular-expression tests)
are embedded for the `\n`-terminated, ASCII-cased fragment actually exercised
by the program: `Char.toLower`/`Char.toUpper` are the ASCII case maps, exactly
the fragment of Unicode case mapping the embedded regex patterns and keyword
lists (all ASCII) can observe.  External platform primitives that the code
merely calls through (`JSON.parse`, `JSON.stringify`, the LLM transport, the
remote Redis transport) are passed in as explicit parameters, following the
instruction of the spec itself to treat them as injected black boxes; SHA-256 and
Base64, which determine the cache-key formats, are implemented concretely.
-/

/-! ## Character-level helpers (ASCII case maps, JS whitespace) -/

/-- `Char.ofNat` round-trip for valid code points. -/
theorem charToNat_ofNat_valid (n : Nat) (h : n.isValidChar) :
    (Char.ofNat n).toNat = n := by
  rw [Char.ofNat, dif_pos h]
  simp [Char.ofNatAux, Char.toNat, UInt32.toNat, UInt32.ofNat']

theorem charValid_of_lt {n : Nat} (h : n < 55296) : n.isValidChar := Or.inl h

/-- Lower-casing after upper-casing agrees with plain lower-casing (ASCII). -/
theorem toLower_toUpper (c : Char) : (c.toUpper).toLower = c.toLower := by
  unfold Char.toUpper Char.toLower
  by_cases h : c.toNat ≥ 97 ∧ c.toNat ≤ 122
  · rw [if_pos h]
    have h1 : (Char.ofNat (c.toNat - 32)).toNat = c.toNat - 32 :=
      charToNat_ofNat_valid _ (charValid_of_lt (by omega))
    rw [h1]
    have h2 : c.toNat - 32 ≥ 65 ∧ c.toNat - 32 ≤ 90 := by omega
    rw [if_pos h2]
    have h3 : ¬ (c.toNat ≥ 65 ∧ c.toNat ≤ 90) := by omega
    rw [if_neg h3]
    have h4 : c.toNat - 32 + 32 = c.toNat := by omega
    rw [h4, Char.ofNat_toNat]
  · rw [if_neg h]

/-- The whitespace class of the JavaScript regex `\s` and of `String.prototype.trim`,
restricted to the ASCII range, by code point: space (32), tab (9), line feed
(10), carriage return (13), vertical tab (11), form feed (12). -/
def jsWhite (c : Char) : Bool :=
  c.toNat = 32 || c.toNat = 9 || c.toNat = 10 || c.toNat = 13 ||
    c.toNat = 11 || c.toNat = 12

/-- ASCII lower-casing preserves membership in the whitespace class. -/
theorem jsWhite_toLower (c : Char) : jsWhite c.toLower = jsWhite c := by
  unfold Char.toLower jsWhite
  by_cases h : c.toNat ≥ 65 ∧ c.toNat ≤ 90
  · rw [if_pos h]
    have h1 : (Char.ofNat (c.toNat + 32)).toNat = c.toNat + 32 :=
      charToNat_ofNat_valid _ (charValid_of_lt (by omega))
    rw [h1, Bool.eq_iff_iff]
    simp only [Bool.or_eq_true, decide_eq_true_eq]
    omega
  · rw [if_neg h]

/-! ## JS string primitives on `List Char` -/

/-- `String.prototype.toLowerCase` (ASCII fragment), on character lists. -/
def lowerStr (l : List Char) : List Char := l.map Char.toLower

/-- `String.prototype.toUpperCase` (ASCII fragment), on character lists. -/
def upperStr (l : List Char) : List Char := l.map Char.toUpper

/-- Drop trailing JS whitespace. -/
def trimEndW (l : List Char) : List Char := (l.reverse.dropWhile jsWhite).reverse

/-- `String.prototype.trim`: drop leading and trailing JS whitespace. -/
def jsTrim (l : List Char) : List Char := trimEndW (l.dropWhile jsWhite)

/-- Pack a character list back into a `String`. -/
def listStr (l : List Char) : String := ⟨l⟩

/-- Substring containment test (the semantics of an unanchored regex literal). -/
def hasSub (pat : List Char) : List Char → Bool
  | [] => pat.isEmpty
  | c :: t => pat.isPrefixOf (c :: t) || hasSub pat t

theorem hasSub_nil_pat (l : List Char) : hasSub [] l = true := by
  cases l <;> simp [hasSub, List.isPrefixOf]

theorem hasSub_of_append (pat a b : List Char) :
    hasSub pat (a ++ pat ++ b) = true := by
  rw [List.append_assoc]
  induction a with
  | nil =>
    cases pat with
    | nil => simpa using hasSub_nil_pat b
    | cons p ps =>
      simp only [List.nil_append, hasSub, Bool.or_eq_true]
      left
      rw [List.isPrefixOf_iff_prefix]
      exact List.prefix_append _ b
  | cons x xs ih =>
    simp only [List.cons_append, hasSub, Bool.or_eq_true]
    right
    exact ih

theorem exists_append_of_hasSub {pat l : List Char} (h : hasSub pat l = true) :
    ∃ a b, l = a ++ pat ++ b := by
  induction l with
  | nil =>
    simp only [hasSub, List.isEmpty_iff] at h
    exact ⟨[], [], by simp [h]⟩
  | cons c t ih =>
    simp only [hasSub, Bool.or_eq_true] at h
    rcases h with h | h
    · rw [List.isPrefixOf_iff_prefix] at h
      rcases h with ⟨tail, htail⟩
      exact ⟨[], tail, by simp [← htail]⟩
    · rcases ih h with ⟨a, b, hab⟩
      exact ⟨c :: a, b, by simp [hab]⟩

/-! ## SQL comment stripping

The client (`validateSQL`, redis.ts lines 219-222) lower-cases, then removes
single-line comments (`--.*$` with the `gm` flags), then block comments
(`/\*[\s\S]*?\*\//g`).  The server (`execute_sql`, rpc-function.sql lines
28-34) removes block comments first (with the `gs` flags — same effect as
`[\s\S]*?`), then line comments.  Line terminators are modelled as `\n`. -/

/-- Truncate one line at the first `--` (the effect of one `--.*$` match). -/
def cutLineComment : List Char → List Char
  | [] => []
  | '-' :: '-' :: _ => []
  | c :: t => c :: cutLineComment t

/-- Split on `\n` (keeping empty segments, as `String.split` / regex `m` do). -/
def splitNL : List Char → List (List Char)
  | [] => [[]]
  | c :: t =>
    if c = '\n' then [] :: splitNL t
    else
      match splitNL t with
      | [] => [[c]]
      | h :: r => (c :: h) :: r

/-- Re-join segments with `\n`. -/
def joinNL : List (List Char) → List Char
  | [] => []
  | [x] => x
  | x :: r => x ++ '\n' :: joinNL r

/-- The g,m-flagged line-comment replacement: on every line, remove from the
first `--` to the end of that line. -/
def stripLineComments (l : List Char) : List Char :=
  joinNL ((splitNL l).map cutLineComment)

/-- Locate the first occurrence of `pat`; return the text before it and the
text after it. -/
def findSub (pat : List Char) : List Char → Option (List Char × List Char)
  | [] => if pat.isEmpty then some ([], []) else none
  | c :: t =>
    if pat.isPrefixOf (c :: t) then some ([], (c :: t).drop pat.length)
    else
      match findSub pat t with
      | some (a, b) => some (c :: a, b)
      | none => none

theorem findSub_length {pat l a b : List Char}
    (h : findSub pat l = some (a, b)) : b.length + pat.length ≤ l.length := by
  induction l generalizing a b with
  | nil =>
    simp only [findSub] at h
    by_cases hp : pat.isEmpty
    · rw [if_pos hp] at h
      cases h
      simp_all [List.isEmpty_iff]
    · rw [if_neg hp] at h; cases h
  | cons c t ih =>
    simp only [findSub] at h
    by_cases hp : pat.isPrefixOf (c :: t)
    · rw [if_pos hp] at h
      cases h
      have hlen : pat.length ≤ (c :: t).length :=
        (List.isPrefixOf_iff_prefix.mp hp).length_le
      have hd : ((c :: t).drop pat.length).length = (c :: t).length - pat.length :=
        List.length_drop _ _
      simp only [List.length_cons] at *
      omega
    · rw [if_neg hp] at h
      cases hfs : findSub pat t with
      | none => rw [hfs] at h; cases h
      | some ab =>
        rw [hfs] at h
        cases ab with
        | mk a' b' =>
          cases h
          have := ih hfs
          simp
          omega

/-- One fuelled pass of the g-flagged block-comment replacement: repeatedly delete
from each `/*` to the nearest following `*/`; an unclosed `/*` matches nothing. -/
def stripBlockGo : Nat → List Char → List Char
  | 0, l => l
  | fuel + 1, l =>
    match findSub ['/', '*'] l with
    | none => l
    | some (a, rest) =>
      match findSub ['*', '/'] rest with
      | none => l
      | some (_, rest2) => a ++ stripBlockGo fuel rest2

/-- The g-flagged block-comment replacement (each deleted region shrinks the text by
at least four characters, so `l.length` fuel always suffices). -/
def stripBlock (l : List Char) : List Char := stripBlockGo l.length l

/-! ## The client-side SQL validator (`validateSQL`, redis.ts lines 216-244) -/

structure SQLValidation where
  valid : Bool
  error : Option String
deriving DecidableEq, Repr

/-- The keyword alternation of the first dangerous pattern
`/;\s*(drop|delete|update|insert|alter|create|truncate|grant|revoke)/i`. -/
def dangerousKws : List (List Char) :=
  ["drop", "delete", "update", "insert", "alter", "create", "truncate",
   "grant", "revoke"].map String.data

/-- After a `;`, skip `\s*` and look for one of the dangerous keywords. -/
def afterSemi (l : List Char) : Bool :=
  dangerousKws.any (fun kw => kw.isPrefixOf (l.dropWhile jsWhite))

/-- Test of `/;\s*(drop|delete|update|insert|alter|create|truncate|grant|revoke)/i`. -/
def hasSemiKw : List Char → Bool
  | [] => false
  | c :: t => (c = ';' && afterSemi t) || hasSemiKw t

/-- A line terminator for the purpose of the regex `.` (which does not match
across lines); modelled for `\n` and `\r`. -/
def lineTerm (c : Char) : Bool := c = '\n' || c = '\r'

/-- At a position starting with `union`, test whether `select` occurs later on
the same line (the semantics of `union.*select` without the `s` flag). -/
def unionHere (l : List Char) : Bool :=
  (['u', 'n', 'i', 'o', 'n'].isPrefixOf l) &&
    hasSub ['s', 'e', 'l', 'e', 'c', 't'] ((l.drop 5).takeWhile (fun c => !lineTerm c))

/-- Test of `/union.*select/i`. -/
def hasUnionSelect : List Char → Bool
  | [] => false
  | c :: t => unionHere (c :: t) || hasUnionSelect t

/-- The text `validateSQL` pattern-matches against (redis.ts lines 217-222):
the lower-cased, trimmed input (`normalizedSQL`) with line comments and then
block comments removed (`sqlWithoutComments`). -/
def clientStripped (sql : String) : List Char :=
  stripBlock (stripLineComments (lowerStr (jsTrim sql.data)))

/-- `validateSQL` (redis.ts lines 216-244): lower-case the trimmed text, strip
line comments then block comments, reject on any dangerous pattern, then reject
unless the trimmed remainder starts with `select`. -/
def validateSQL (sql : String) : SQLValidation :=
  if hasSemiKw (clientStripped sql) || hasUnionSelect (clientStripped sql) ||
      hasSub "exec(".data (clientStripped sql) ||
      hasSub "execute(".data (clientStripped sql) then
    { valid := false, error := some "SQL contains potentially dangerous operations" }
  else if !("select".data.isPrefixOf (jsTrim (clientStripped sql))) then
    { valid := false, error := some "Only SELECT queries are allowed" }
  else
    { valid := true, error := none }

/-! ## The server-side validation of `execute_sql` (rpc-function.sql lines 16-44) -/

inductive PgCheck where
  | notSelect
  | dangerous
  | proceeds
deriving DecidableEq, Repr

/-- PostgreSQL `TRIM(text)`: strip space characters (only) from both ends. -/
def pgTrim (l : List Char) : List Char :=
  ((l.dropWhile (fun c => c = ' ')).reverse.dropWhile (fun c => c = ' ')).reverse

/-- PostgreSQL `RTRIM(text, ';')`: strip all trailing semicolons. -/
def pgRTrimSemi (l : List Char) : List Char :=
  (l.reverse.dropWhile (fun c => c = ';')).reverse

/-- The keyword alternation of the server-side dangerous-pattern regex
`(drop|delete|update|insert|alter|create|truncate|grant|revoke|exec|execute)`,
tested for containment anywhere in the comment-stripped text. -/
def pgDangerKws : List (List Char) :=
  ["drop", "delete", "update", "insert", "alter", "create", "truncate",
   "grant", "revoke", "exec", "execute"].map String.data

/-- The validation phase of the `execute_sql` stored procedure: trim; strip one
run of trailing semicolons; lower-case; strip block comments then line
comments; trim; require a `select` or `with` head; reject on any dangerous
keyword occurring anywhere. -/
def executeSqlCheck (queryText : String) : PgCheck :=
  let cleaned := pgTrim queryText.data
  let cleaned2 :=
    if cleaned.getLast? = some ';' then pgTrim (pgRTrimSemi cleaned) else cleaned
  let normalized := lowerStr cleaned2
  let noComments := pgTrim (stripLineComments (stripBlock normalized))
  if !("select".data.isPrefixOf noComments || "with".data.isPrefixOf noComments) then
    .notSelect
  else if pgDangerKws.any (fun kw => hasSub kw noComments) then
    .dangerous
  else
    .proceeds

/-! ## Byte-level codecs: UTF-8, SHA-256, Base64

`generateCacheKey` (analytics route / clear-cache route) derives
`query:` + SHA-256-hex of the normalized question, and
`generateChatCacheKey` (gemini.ts lines 149-152 / clear-cache route lines
12-15) derives `chat:` + Base64 of the prompt (optionally joined with the
context by a colon).  Both platform codecs are implemented concretely so that
keys are computable inside the embedding. -/

/-- UTF-8 encoding of one code point. -/
def utf8Char (n : Nat) : List Nat :=
  if n < 128 then [n]
  else if n < 2048 then [192 + n / 64, 128 + n % 64]
  else if n < 65536 then
    [224 + n / 4096, 128 + (n / 64) % 64, 128 + n % 64]
  else
    [240 + n / 262144, 128 + (n / 4096) % 64, 128 + (n / 64) % 64, 128 + n % 64]

/-- UTF-8 encoding of a string (the default encoding of both `crypto.update`
and `Buffer.from`). -/
def utf8Bytes (s : String) : List Nat :=
  (s.data.map (fun c => utf8Char c.toNat)).flatten

/-- Truncation to a 32-bit word. -/
def w32 (n : Nat) : Nat := n % 4294967296

/-- 32-bit right rotation. -/
def rotr (n k : Nat) : Nat := w32 ((n >>> k) ||| (n <<< (32 - k)))

/-- Bitwise complement on 32 bits. -/
def wNot (n : Nat) : Nat := n ^^^ 4294967295

def sha256K : List Nat :=
  [1116352408, 1899447441, 3049323471, 3921009573, 961987163,
   1508970993, 2453635748, 2870763221, 3624381080, 310598401,
   607225278, 1426881987, 1925078388, 2162078206, 2614888103,
   3248222580, 3835390401, 4022224774, 264347078, 604807628,
   770255983, 1249150122, 1555081692, 1996064986, 2554220882,
   2821834349, 2952996808, 3210313671, 3336571891, 3584528711,
   113926993, 338241895, 666307205, 773529912, 1294757372,
   1396182291, 1695183700, 1986661051, 2177026350, 2456956037,
   2730485921, 2820302411, 3259730800, 3345764771, 3516065817,
   3600352804, 4094571909, 275423344, 430227734, 506948616,
   659060556, 883997877, 958139571, 1322822218, 1537002063,
   1747873779, 1955562222, 2024104815, 2227730452, 2361852424,
   2428436474, 2756734187, 3204031479, 3329325298]

def sha256H0 : List Nat :=
  [1779033703, 3144134277, 1013904242, 2773480762, 1359893119,
   2600822924, 528734635, 1541459225]

/-- SHA-256 message padding: `0x80`, zeros to 56 mod 64, then the bit length
as an 8-byte big-endian integer. -/
def sha256Pad (msg : List Nat) : List Nat :=
  let len := msg.length
  let zeroCount := (64 + 56 - (len + 1) % 64) % 64
  let bitLen := len * 8
  msg ++ [128] ++ List.replicate zeroCount 0 ++
    (List.range 8).map (fun i => (bitLen >>> (56 - 8 * i)) % 256)

/-- Big-endian 32-bit words from a byte list. -/
def bytesToWords : List Nat → List Nat
  | b0 :: b1 :: b2 :: b3 :: rest =>
    (b0 * 16777216 + b1 * 65536 + b2 * 256 + b3) :: bytesToWords rest
  | _ => []

def smallSigma0 (x : Nat) : Nat := (rotr x 7) ^^^ (rotr x 18) ^^^ (x >>> 3)
def smallSigma1 (x : Nat) : Nat := (rotr x 17) ^^^ (rotr x 19) ^^^ (x >>> 10)
def bigSigma0 (x : Nat) : Nat := (rotr x 2) ^^^ (rotr x 13) ^^^ (rotr x 22)
def bigSigma1 (x : Nat) : Nat := (rotr x 6) ^^^ (rotr x 11) ^^^ (rotr x 25)

/-- Extend the 16 block words to the 64-entry message schedule. -/
def sha256Extend (w : List Nat) : Nat → List Nat
  | 0 => w
  | k + 1 =>
    let w' := sha256Extend w k
    let i := w'.length
    w' ++ [w32 (smallSigma1 (w'.getD (i - 2) 0) + w'.getD (i - 7) 0 +
                smallSigma0 (w'.getD (i - 15) 0) + w'.getD (i - 16) 0)]

/-- One round of the SHA-256 compression function. -/
def sha256Round (st : List Nat) (kw : Nat × Nat) : List Nat :=
  match st with
  | [a, b, c, d, e, f, g, h] =>
    let t1 := w32 (h + bigSigma1 e + ((e &&& f) ^^^ (wNot e &&& g)) + kw.1 + kw.2)
    let t2 := w32 (bigSigma0 a + ((a &&& b) ^^^ (a &&& c) ^^^ (b &&& c)))
    [w32 (t1 + t2), a, b, c, w32 (d + t1), e, f, g]
  | other => other

/-- Process one 64-byte block. -/
def sha256Block (h : List Nat) (block : List Nat) : List Nat :=
  let w := sha256Extend (bytesToWords block) 48
  let st := (sha256K.zip w).foldl sha256Round h
  (h.zip st).map (fun p => w32 (p.1 + p.2))

/-- Split into 64-byte chunks (structural recursion on a length fuel, so that
digests reduce definitionally; each step consumes at least one byte). -/
def chunks64Go : Nat → List Nat → List (List Nat)
  | 0, _ => []
  | _, [] => []
  | fuel + 1, c :: rest => ((c :: rest).take 64) :: chunks64Go fuel ((c :: rest).drop 64)

def chunks64 (l : List Nat) : List (List Nat) := chunks64Go l.length l

/-- The SHA-256 digest (as eight 32-bit words) of a byte list. -/
def sha256Words (msg : List Nat) : List Nat :=
  (chunks64 (sha256Pad msg)).foldl sha256Block sha256H0

def hexDigit (n : Nat) : Char :=
  if n < 10 then Char.ofNat (48 + n) else Char.ofNat (87 + n)

/-- Eight lowercase hex digits of a 32-bit word, most significant first. -/
def hex8 (n : Nat) : List Char :=
  (List.range 8).map (fun i => hexDigit ((n >>> (28 - 4 * i)) % 16))

/-- Lowercase hex encoding of a SHA-256 digest of a byte list. -/
def sha256Hex (msg : List Nat) : String :=
  listStr ((sha256Words msg).map hex8).flatten

/-- The Base64 alphabet. -/
def b64Char (n : Nat) : Char :=
  if n < 26 then Char.ofNat (65 + n)
  else if n < 52 then Char.ofNat (97 + (n - 26))
  else if n < 62 then Char.ofNat (48 + (n - 52))
  else if n = 62 then '+'
  else '/'

/-- Standard Base64 with `=` padding (the semantics of
`Buffer.from(s).toString` with the base64 encoding). -/
def base64 : List Nat → List Char
  | b0 :: b1 :: b2 :: rest =>
    b64Char (b0 / 4) :: b64Char ((b0 % 4) * 16 + b1 / 16) ::
      b64Char ((b1 % 16) * 4 + b2 / 64) :: b64Char (b2 % 64) :: base64 rest
  | [b0, b1] =>
    [b64Char (b0 / 4), b64Char ((b0 % 4) * 16 + b1 / 16),
     b64Char ((b1 % 16) * 4), '=']
  | [b0] => [b64Char (b0 / 4), b64Char ((b0 % 4) * 16), '=', '=']
  | [] => []

/-! ## Cache key derivation -/

/-- `generateCacheKey` — the analytics query cache key.  The same four-line
function body appears verbatim in the analytics query route, the chat route
(there named `generateQueryCacheKey`), and the clear-cache route: SHA-256 of
the lower-cased, trimmed question, hex-encoded, under the `query:` name space. -/
def generateCacheKey (question : String) : String :=
  "query:" ++ sha256Hex (utf8Bytes (listStr (jsTrim (lowerStr question.data))))

/-- `generateChatCacheKey` (gemini.ts lines 149-152, duplicated in the
clear-cache route): joins prompt and context with `:` when the context
argument is truthy (present and non-empty), then Base64-encodes under the
`chat:` name space.  `none` models a missing (`undefined`) context. -/
def generateChatCacheKey (prompt : String) (context : Option String) : String :=
  let baseString :=
    match context with
    | some c => if c.isEmpty then prompt else prompt ++ ":" ++ c
    | none => prompt
  "chat:" ++ listStr (base64 (utf8Bytes baseString))

/-! ## JavaScript values and the cache store adapter (redis.ts lines 14-64)

Values flowing through the cache are modelled by `JSVal` (the JSON-expressible
JavaScript values).  The remote Redis transport is a black box: a read is
represented by its outcome — either a transport error (the `catch` path) or a
value (`vNull` for an absent key, a string for a stored string).  `JSON.parse`
is the platform parser, passed in as a function returning `Except` (its `throw`
is the `.error` case). -/

inductive JSVal where
  | vNull
  | vBool (b : Bool)
  | vNum (n : Int)
  | vStr (s : String)
  | vArr (xs : List JSVal)
  | vObj (fields : List (String × JSVal))
deriving Repr

/-- JavaScript truthiness of a `JSVal` (`if (data)`-style tests): `null`,
`false`, `0` and the empty string are falsy; arrays and objects are truthy. -/
def jsTruthy : JSVal → Bool
  | .vNull => false
  | .vBool b => b
  | .vNum n => n != 0
  | .vStr s => !s.isEmpty
  | .vArr _ => true
  | .vObj _ => true

/-- JavaScript property access `v.k` on a parsed JSON value: a defined field of
an object, `undefined` (here `none`) otherwise. -/
def jsField : JSVal → String → Option JSVal
  | .vObj fields, k => (fields.find? (fun p => p.1 = k)).map (fun p => p.2)
  | _, _ => none

/-- `getCachedData` (redis.ts lines 14-33).  `fetch` is the awaited
`redis.get(key)` outcome; `parse` is `JSON.parse`.  The translation is
branch-for-branch: a transport error is caught and becomes `null`; a falsy
value falls through to `return null`; a truthy string is JSON-parsed, with a
parse failure caught and the raw string returned; any other truthy value is
returned as-is. -/
def getCachedData (parse : String → Except String JSVal)
    (fetch : Except String JSVal) : JSVal :=
  match fetch with
  | .error _ => .vNull
  | .ok data =>
    if jsTruthy data then
      match data with
      | .vStr s =>
        match parse s with
        | .ok v => v
        | .error _ => .vStr s
      | _ => data
    else .vNull

/-- The remote key-value store, as the map of currently stored strings
(`setex` stores `JSON.stringify(data)`; TTL expiry is outside the model). -/
structure Store where
  entries : List (String × String)
deriving Repr

def storeGet (st : Store) (key : String) : Option String :=
  (st.entries.find? (fun p => p.1 = key)).map (fun p => p.2)

def storeSet (st : Store) (key v : String) : Store :=
  ⟨(key, v) :: st.entries.filter (fun p => ¬ p.1 = key)⟩

/-- The awaited `redis.get(key)` against a `Store`: a transport failure when
`transportError` is set, otherwise the stored string, or `null` when absent. -/
def fetchFromStore (st : Store) (key : String)
    (transportError : Option String) : Except String JSVal :=
  match transportError with
  | some e => .error e
  | none =>
    match storeGet st key with
    | some s => .ok (.vStr s)
    | none => .ok .vNull

/-- `setCachedData` (redis.ts lines 35-42).  `stringify` is `JSON.stringify`;
`writeFails` says whether the awaited `redis.setex` throws.  The `catch` arm
only logs, so the function always returns normally (`Except.ok`), leaving the
store unchanged on failure. -/
def setCachedData (stringify : JSVal → String) (key : String) (data : JSVal)
    (writeFails : Bool) (st : Store) : Except String Store :=
  if writeFails then .ok st else .ok (storeSet st key (stringify data))

/-- `clearCachePattern` (redis.ts lines 53-64): a stub — it only logs a note
that pattern-based clearing is not supported and returns 0. -/
def clearCachePattern (_pattern : String) : Nat := 0

/-! ## The greeting / general-question short circuit of `generateSQLFromQuestion`
(redis.ts lines 246-283, identical in `lib/sql-generator`) -/

inductive VizType where
  | table | bar | line | pie | map | metric
deriving DecidableEq, Repr

structure SQLGenerationResult where
  sql : String
  explanation : String
  visualizationType : Option VizType
deriving DecidableEq, Repr

/-- The greeting alternation of `^(hi|hello|hey|greetings|good morning|good
afternoon|good evening|howdy)$` (whole-string, case-insensitive). -/
def greetingTokens : List String :=
  ["hi", "hello", "hey", "greetings", "good morning", "good afternoon",
   "good evening", "howdy"]

/-- Whole-string greeting match against an already lower-cased, trimmed text. -/
def isGreetingL (lowerQuestion : List Char) : Bool :=
  greetingTokens.any (fun g => lowerQuestion = g.data)

/-- The data-related keyword list (redis.ts lines 255-261), verbatim. -/
def dataKeywords : List String :=
  ["rows", "row", "count", "number", "how many", "how much", "total", "sum",
   "average", "avg", "max", "min", "table", "data", "query", "select", "show",
   "list", "find", "get", "sales", "revenue", "orders", "products",
   "customers", "sellers", "payments", "delivery", "category", "categories",
   "state", "month", "year", "quarter", "geolocation", "olist_", "customer",
   "seller", "order", "payment", "review", "product"]

/-- `lowerQuestion.includes(keyword)` over the keyword list. -/
def hasDataKeywords (lowerQuestion : List Char) : Bool :=
  dataKeywords.any (fun kw => hasSub kw.data lowerQuestion)

/-- The alternation of the numeric-request pattern `(how many|how much|count|
number of|total|sum|average|rows? in|records? in)`, expanded. -/
def numericPats : List String :=
  ["how many", "how much", "count", "number of", "total", "sum", "average",
   "row in", "rows in", "record in", "records in"]

/-- The case-insensitive numeric-request test, applied to the raw question
(redis.ts line 267 tests `question`, not the trimmed copy). -/
def isAskingForData (question : String) : Bool :=
  numericPats.any (fun p => hasSub p.data (lowerStr question.data))

/-- The start-anchored general-question alternation `^(what|who|when|where|why|
how|explain|tell me|help|can you|what is|what are)`, kept verbatim (the last
two entries are subsumed by `what`). -/
def generalStarts : List String :=
  ["what", "who", "when", "where", "why", "how", "explain", "tell me", "help",
   "can you", "what is", "what are"]

def isGeneralQuestion (lowerQuestion : List Char) (question : String) : Bool :=
  generalStarts.any (fun p => p.data.isPrefixOf lowerQuestion) &&
    !hasDataKeywords lowerQuestion && !isAskingForData question

/-- The canned greeting explanation (redis.ts line 279), byte-for-byte
(including the mis-decoded emoji and bullet sequences present in the source). -/
def greetingExplanation : String :=
  "Hello! ðŸ‘‹ I\u0027m your analytics assistant for the Brazilian E-Commerce Olist dataset. I can help you explore 100k+ orders from 2016-2018. Try asking me questions like:\n\nâ€¢ \"Which product category sold the most in Q4 2018?\"\nâ€¢ \"Show average delivery time by state\"\nâ€¢ \"What\u0027s the total revenue by payment method?\"\nâ€¢ \"Which sellers have the highest review scores?\"\n\nWhat would you like to explore?"

/-- The canned general-question explanation (redis.ts line 280), byte-for-byte. -/
def generalExplanation : String :=
  "I\u0027m here to help you analyze the Brazilian E-Commerce dataset! I can generate SQL queries and create visualizations from your questions. Try asking about:\n\nâ€¢ Sales and revenue trends\nâ€¢ Product categories and performance\nâ€¢ Customer and seller analytics\nâ€¢ Payment methods and delivery times\nâ€¢ Geographic distribution of orders\n\nWhat specific analysis would you like to see?"

/-- The outcome of `generateSQLFromQuestion` up to the external call: either
the canned conversational result returned by the short circuit (lines
274-283), or the single outbound `model.generateContent` invocation the
function otherwise performs (line 318; its response parsing consumes data this
model does not carry). -/
inductive GenOutcome where
  | canned (r : SQLGenerationResult)
  | modelCall
deriving DecidableEq, Repr

/-- The short-circuit phase of `generateSQLFromQuestion` (redis.ts lines
249-283): lower-case and trim the question; on a greeting or a general
question return the canned conversational result with empty `sql` and
`visualizationType` `table`; otherwise proceed to the external call. -/
def generateSQLFromQuestion (question : String) : GenOutcome :=
  let lowerQuestion := jsTrim (lowerStr question.data)
  let isGreeting := isGreetingL lowerQuestion
  let isGeneral := isGeneralQuestion lowerQuestion question
  if isGreeting || isGeneral then
    .canned
      { sql := ""
        explanation := if isGreeting then greetingExplanation else generalExplanation
        visualizationType := some .table }
  else
    .modelCall

/-! ## The analytics query route (unnamed/part_004, POST, lines 70-180)

The handler is modelled per request against a `Store` snapshot.  External
collaborators appear as injected outcomes: `gen` is the awaited
`generateSQLFromQuestion` result, `exec` the awaited `executeSQL` result,
`parse`/`stringify` the platform JSON codec, `getError`/`setFails` transport
failures of the two cache operations, and `t0`/`t1` the two `Date.now()`
readings.  `genCalls`/`execCalls` count the generator and executor
invocations, for the call-count properties of the spec. -/

inductive ApiResponse where
  | badRequest (msg : String)
  | okJson (v : JSVal)
  | error500 (msg : String)
deriving Repr

def vizName : VizType → String
  | .table => "table"
  | .bar => "bar"
  | .line => "line"
  | .pie => "pie"
  | .map => "map"
  | .metric => "metric"

/-- The `QueryResponse` record built on the success path (lines 148-156). -/
structure QueryResponse where
  sql : String
  explanation : String
  data : List JSVal
  columns : List String
  visualizationType : VizType
  cached : Bool
  executionTime : Int
deriving Repr

/-- The JSON object a `QueryResponse` serializes to, fields in the insertion
order of the object literal. -/
def qrToJSVal (r : QueryResponse) : JSVal :=
  .vObj [("sql", .vStr r.sql), ("explanation", .vStr r.explanation),
         ("data", .vArr r.data), ("columns", .vArr (r.columns.map .vStr)),
         ("visualizationType", .vStr (vizName r.visualizationType)),
         ("cached", .vBool r.cached), ("executionTime", .vNum r.executionTime)]

/-- The own enumerable properties a JavaScript spread `...v` contributes:
object fields, or index-keyed entries for strings and arrays. -/
def spreadFields : JSVal → List (String × JSVal)
  | .vObj fs => fs
  | .vStr s => s.data.enum.map (fun p => (toString p.1, .vStr (listStr [p.2])))
  | .vArr xs => xs.enum.map (fun p => (toString p.1, p.2))
  | _ => []

/-- Set a key in a field list, keeping its position if present (the JS object
literal update semantics). -/
def setKey : List (String × JSVal) → String → JSVal → List (String × JSVal)
  | [], k, v => [(k, v)]
  | (k0, v0) :: t, k, v =>
    if k0 = k then (k, v) :: t else (k0, v0) :: setKey t k v

/-- The object literal spread-and-override of the cache-hit return
(lines 93-96; also 135-138 of the chat route). -/
def jsSpreadWith (base : JSVal) (k : String) (v : JSVal) : JSVal :=
  .vObj (setKey (spreadFields base) k v)

/-- The conversational 200 payload (lines 107-116). -/
def convPayload (explanation : String) (et : Int) : JSVal :=
  .vObj [("sql", .vStr ""), ("explanation", .vStr explanation),
         ("data", .vArr []), ("columns", .vArr []),
         ("visualizationType", .vStr "table"), ("cached", .vBool false),
         ("executionTime", .vNum et), ("isConversational", .vBool true)]

structure AnalyticsDeps where
  parse : String → Except String JSVal
  stringify : JSVal → String
  gen : Except String SQLGenerationResult
  exec : Except String (List JSVal × List String)
  getError : Option String
  setFails : Bool
  t0 : Int
  t1 : Int

structure RouteResult where
  response : ApiResponse
  store : Store
  genCalls : Nat
  execCalls : Nat
deriving Repr

/-- The analytics POST handler (part_004 lines 70-180), step for step: input
validation; greeting test (on the trimmed question, case-insensitively); cache
check skipped for greetings; on a truthy cache hit, return the spread of the
hit with `cached: true`; otherwise generate; an empty or blank generated `sql`
returns the conversational payload uncached; otherwise execute, build the
`QueryResponse` with `cached: false`, best-effort write it to the cache, and
return it.  A generator or executor failure surfaces as a 500. -/
def analyticsPOST (d : AnalyticsDeps) (st : Store) (question : Option String) :
    RouteResult :=
  match question with
  | none => ⟨.badRequest "Question is required and must be a string", st, 0, 0⟩
  | some q =>
    if q.isEmpty then
      ⟨.badRequest "Question is required and must be a string", st, 0, 0⟩
    else
      let isGreeting := isGreetingL (lowerStr (jsTrim q.data))
      let cacheKey := generateCacheKey q
      let hit : Option JSVal :=
        if !isGreeting then
          let cachedResponse := getCachedData d.parse (fetchFromStore st cacheKey d.getError)
          if jsTruthy cachedResponse then some cachedResponse else none
        else none
      match hit with
      | some c => ⟨.okJson (jsSpreadWith c "cached" (.vBool true)), st, 0, 0⟩
      | none =>
        match d.gen with
        | .error e => ⟨.error500 e, st, 1, 0⟩
        | .ok sqlResult =>
          if sqlResult.sql.isEmpty || (jsTrim sqlResult.sql.data).isEmpty then
            ⟨.okJson (convPayload sqlResult.explanation (d.t1 - d.t0)), st, 1, 0⟩
          else
            match d.exec with
            | .error e => ⟨.error500 e, st, 1, 1⟩
            | .ok (rows, cols) =>
              let response : QueryResponse :=
                { sql := sqlResult.sql
                  explanation := sqlResult.explanation
                  data := rows
                  columns := cols
                  visualizationType := sqlResult.visualizationType.getD .table
                  cached := false
                  executionTime := d.t1 - d.t0 }
              let st' :=
                match setCachedData d.stringify cacheKey (qrToJSVal response)
                    d.setFails st with
                | .ok s => s
                | .error _ => st
              ⟨.okJson (qrToJSVal response), st', 1, 1⟩

/-! ## The chat route (src/src/app/api/chat/route.ts, POST, lines 13-208)

The handler is modelled down to its branch structure.  The outcome constructor
records which terminal branch produced the HTTP response:
`analyticsCached v` is the short circuit on an analytics cache entry `v`
(lines 35-139) — the handler synthesizes a natural-language summary from `v`
by pure string formatting (lines 36-134, not modelled further) and returns it
with `cached: true`; `chatCached v` is the chat-cache hit returning `v` with
`cached: true` (lines 142-148); `generated r` is the fresh LLM response `r`
returned with `cached: false` after a best-effort cache write (lines 184-193);
`failed` is the catch-all 500. -/

inductive ChatOutcome where
  | invalidInput
  | analyticsCached (v : JSVal)
  | chatCached (v : JSVal)
  | generated (resp : JSVal)
  | failed (msg : String)
deriving Repr

/-- The `cached` flag of the JSON response each terminal branch produces. -/
def chatCachedFlag : ChatOutcome → Option Bool
  | .analyticsCached _ => some true
  | .chatCached _ => some true
  | .generated _ => some false
  | .invalidInput => none
  | .failed _ => none

structure ChatDeps where
  parse : String → Except String JSVal
  stringify : JSVal → String
  genChat : Except String JSVal
  queryGetError : Option String
  chatGetError : Option String
  setFails : Bool

/-- The generation tail of the chat handler (lines 151-207): call the LLM
(outcome `d.genChat`); on failure answer the 500 branch; on success cache the
response under the chat key (best-effort) and return it uncached. -/
def chatGenerate (d : ChatDeps) (cacheKey : String) (st : Store) :
    ChatOutcome × Store :=
  match d.genChat with
  | .error e => (.failed e, st)
  | .ok resp =>
    let st' :=
      match setCachedData d.stringify cacheKey resp d.setFails st with
      | .ok s => s
      | .error _ => st
    (.generated resp, st')

/-- The chat POST handler (route.ts lines 13-208): input validation; greeting
test; for non-greetings, first probe the analytics cache under the query key
and short-circuit when the entry is truthy and its `data` property is defined
(`cachedQueryResponse && cachedQueryResponse.data !== undefined`, line 35);
else probe the chat cache under the chat key and return a truthy hit; else
call the LLM, best-effort cache the answer under the chat key, and return it. -/
def chatPOST (d : ChatDeps) (st : Store) (question : Option String)
    (includeData : Bool) : ChatOutcome × Store :=
  match question with
  | none => (.invalidInput, st)
  | some q =>
    if q.isEmpty then (.invalidInput, st)
    else
      let isGreeting := isGreetingL (lowerStr (jsTrim q.data))
      let cacheKey := generateChatCacheKey q (if includeData then some "with-data" else none)
      if !isGreeting then
        let queryCacheKey := generateCacheKey q
        let cachedQueryResponse :=
          getCachedData d.parse (fetchFromStore st queryCacheKey d.queryGetError)
        if jsTruthy cachedQueryResponse &&
            (jsField cachedQueryResponse "data").isSome then
          (.analyticsCached cachedQueryResponse, st)
        else
          let cachedResponse :=
            getCachedData d.parse (fetchFromStore st cacheKey d.chatGetError)
          if jsTruthy cachedResponse then (.chatCached cachedResponse, st)
          else chatGenerate d cacheKey st
      else chatGenerate d cacheKey st

/-! ## The clear-cache DELETE handler and its cursor-scan loop
(src/src/app/api/clear-cache/route.ts, lines 56-124) -/

/-- One awaited `redis.scan(cursor, ...)` outcome: the next cursor with a batch
of matching keys, or a thrown transport error. -/
inductive ScanReply where
  | ok (next : Nat) (keys : List String)
  | fail (msg : String)

/-- The error triage of the catch arm (lines 88): the message mentions `SCAN`
or `not supported`. -/
def scanUnsupported (msg : String) : Bool :=
  hasSub "SCAN".data msg.data || hasSub "not supported".data msg.data

/-- The `scanAndDelete` do-while loop (lines 66-98): scan from the cursor,
batch-delete any returned keys (`redis.del(...keys)`, modelled by accumulating
the deleted keys) and add their number to the running count, stop when the
cursor returns to 0; a thrown scan error returns 0 when its message marks SCAN
as unsupported and propagates otherwise.  `fuel` bounds the iteration count of
the embedding (`none` = the loop has not terminated within `fuel` scans);
every theorem below supplies sufficient fuel explicitly. -/
def scanAndDelete (scan : Nat → ScanReply) :
    Nat → Nat → Nat → List String → Option (Except String (Nat × List String))
  | 0, _, _, _ => none
  | fuel + 1, cursor, count, deleted =>
    match scan cursor with
    | .fail msg =>
      if scanUnsupported msg then some (.ok (0, deleted))
      else some (.error msg)
    | .ok next keys =>
      let deleted' := if keys.length > 0 then deleted ++ keys else deleted
      let count' := if keys.length > 0 then count + keys.length else count
      if next = 0 then some (.ok (count', deleted'))
      else scanAndDelete scan fuel next count' deleted'

/-- A cursor-scan schedule that serves the pages of `pages` in order: the
cursor is the next page index, returning to 0 after the last page (and an
empty keyspace answers an immediate 0). -/
def pagesScan (pages : List (List String)) : Nat → ScanReply := fun c =>
  if c < pages.length then
    .ok (if c + 1 = pages.length then 0 else c + 1) (pages.getD c [])
  else .ok 0 []

/-- The DELETE handler (lines 56-124): run `scanAndDelete` for `query:*`, then
for `chat:*` (`scan` maps each match pattern to its reply schedule), add the
two counts, and answer `success`, a count-dependent message, and the combined
`deletedCount`; a propagated scan error is caught and answered as a 500. -/
def deleteCacheDELETE (scan : String → Nat → ScanReply) (fuel : Nat) :
    Option ApiResponse :=
  match scanAndDelete (scan "query:*") fuel 0 0 [] with
  | none => none
  | some (.error e) => some (.error500 e)
  | some (.ok (q, _)) =>
    match scanAndDelete (scan "chat:*") fuel 0 0 [] with
    | none => none
    | some (.error e) => some (.error500 e)
    | some (.ok (c, _)) =>
      some (.okJson (.vObj
        [("success", .vBool true),
         ("message", .vStr (if q + c > 0 then
            "All cache cleared successfully (" ++ toString (q + c) ++ " entries)"
          else "Cache cleared (or no cache entries found)")),
         ("deletedCount", .vNum (Int.ofNat (q + c)))]))

/-! ## Supporting lemmas -/

theorem dropWhile_idem {p : Char → Bool} (l : List Char) :
    (l.dropWhile p).dropWhile p = l.dropWhile p := by
  induction l with
  | nil => rfl
  | cons c t ih =>
    by_cases h : p c
    · simp only [List.dropWhile_cons, h, if_true]
      exact ih
    · simp [List.dropWhile_cons, h]

theorem dropWhile_append_all {p : Char → Bool} {ws : List Char}
    (h : ∀ c ∈ ws, p c = true) (r : List Char) :
    (ws ++ r).dropWhile p = r.dropWhile p := by
  induction ws with
  | nil => rfl
  | cons c t ih =>
    simp only [List.cons_append, List.dropWhile_cons, h c (by simp), if_true]
    exact ih (fun x hx => h x (by simp [hx]))

theorem takeWhile_append_all {p : Char → Bool} {ws : List Char}
    (h : ∀ c ∈ ws, p c = true) (r : List Char) :
    (ws ++ r).takeWhile p = ws ++ r.takeWhile p := by
  induction ws with
  | nil => rfl
  | cons c t ih =>
    simp only [List.cons_append, List.takeWhile_cons, h c (by simp), if_true]
    rw [ih (fun x hx => h x (by simp [hx]))]

theorem dropWhile_of_ne_head {p : Char → Bool} {l : List Char}
    (h : ∀ c t, l = c :: t → p c = false) : l.dropWhile p = l := by
  cases l with
  | nil => rfl
  | cons c t => rw [List.dropWhile_cons, if_neg (by simp [h c t rfl])]

theorem trimEndW_prefix (l : List Char) : trimEndW l <+: l := by
  unfold trimEndW
  have := List.dropWhile_suffix (l := l.reverse) jsWhite
  rw [← List.reverse_prefix] at this
  simpa using this

theorem head_not_white_of_dropWhile_eq {l : List Char} {c : Char} {t : List Char}
    (h : l.dropWhile jsWhite = l) (hl : l = c :: t) : jsWhite c = false := by
  subst hl
  by_contra hc
  rw [List.dropWhile_cons, if_pos (by simpa using hc)] at h
  have := congrArg List.length h
  have hle : (t.dropWhile jsWhite).length ≤ t.length :=
    (List.dropWhile_suffix jsWhite).length_le
  simp at this
  omega

theorem jsTrim_idem (l : List Char) : jsTrim (jsTrim l) = jsTrim l := by
  unfold jsTrim
  set m := l.dropWhile jsWhite with hm
  have hmm : m.dropWhile jsWhite = m := by rw [hm]; exact dropWhile_idem l
  have h1 : (trimEndW m).dropWhile jsWhite = trimEndW m := by
    apply dropWhile_of_ne_head
    intro c t hct
    rcases trimEndW_prefix m with ⟨k, hk⟩
    rw [hct] at hk
    exact head_not_white_of_dropWhile_eq hmm hk.symm
  rw [h1]
  unfold trimEndW
  rw [List.reverse_reverse, dropWhile_idem m.reverse]

theorem lowerStr_jsTrim (l : List Char) :
    lowerStr (jsTrim l) = jsTrim (lowerStr l) := by
  have hpf : (jsWhite ∘ Char.toLower) = jsWhite := funext jsWhite_toLower
  have h1 : ∀ x : List Char, List.map Char.toLower (x.dropWhile jsWhite) =
      (List.map Char.toLower x).dropWhile jsWhite := by
    intro x
    rw [List.dropWhile_map, hpf]
  unfold jsTrim trimEndW lowerStr
  rw [List.map_reverse, h1, List.map_reverse, h1]

theorem lowerStr_upperStr (l : List Char) :
    lowerStr (upperStr l) = lowerStr l := by
  unfold lowerStr upperStr
  rw [List.map_map]
  exact List.map_congr_left (fun c _ => toLower_toUpper c)

theorem kwHead_not_white :
    ∀ kw ∈ dangerousKws, kw ≠ [] ∧ jsWhite (kw.headD 'x') = false := by
  decide

theorem hasSemiKw_of_decomp {s a ws kw b : List Char}
    (hkw : kw ∈ dangerousKws) (hws : ∀ c ∈ ws, jsWhite c = true)
    (hs : s = a ++ ';' :: (ws ++ kw ++ b)) : hasSemiKw s = true := by
  subst hs
  induction a with
  | nil =>
    simp only [List.nil_append, hasSemiKw, Bool.or_eq_true]
    left
    rw [Bool.and_eq_true]
    refine ⟨by simp, ?_⟩
    unfold afterSemi
    rw [List.any_eq_true]
    refine ⟨kw, hkw, ?_⟩
    rw [List.append_assoc, dropWhile_append_all hws]
    rcases kwHead_not_white kw hkw with ⟨hne, hcw⟩
    cases kw with
    | nil => exact absurd rfl hne
    | cons c t =>
      simp only [List.headD_cons] at hcw
      rw [List.cons_append, List.dropWhile_cons, if_neg (by simp [hcw])]
      rw [List.isPrefixOf_iff_prefix, ← List.cons_append]
      exact List.prefix_append _ b
  | cons x xs ih =>
    simp only [List.cons_append, hasSemiKw, Bool.or_eq_true]
    right
    exact ih

theorem select_chars_not_term :
    ∀ c ∈ ("select".data : List Char), lineTerm c = false := by decide

theorem hasUnionSelect_of_decomp {s a b e : List Char}
    (hb : ∀ c ∈ b, lineTerm c = false)
    (hs : s = a ++ "union".data ++ (b ++ "select".data ++ e)) :
    hasUnionSelect s = true := by
  subst hs
  rw [List.append_assoc]
  induction a with
  | nil =>
    have hu : hasUnionSelect ("union".data ++ (b ++ "select".data ++ e)) =
        (unionHere ("union".data ++ (b ++ "select".data ++ e)) ||
          hasUnionSelect (("union".data ++ (b ++ "select".data ++ e)).tail)) := by
      rfl
    rw [List.nil_append, hu, Bool.or_eq_true]
    left
    unfold unionHere
    rw [Bool.and_eq_true]
    constructor
    · rw [List.isPrefixOf_iff_prefix]
      exact List.prefix_append _ _
    · have hdrop : (("union".data ++ (b ++ "select".data ++ e)).drop 5) =
          b ++ "select".data ++ e := by
        have : ("union".data : List Char).length = 5 := by decide
        rw [← this, List.drop_left]
      rw [hdrop, List.append_assoc,
          takeWhile_append_all (p := fun c => !lineTerm c)
            (fun c hc => by simp [hb c hc]),
          takeWhile_append_all (p := fun c => !lineTerm c)
            (fun c hc => by simp [select_chars_not_term c hc])]
      rw [← List.append_assoc]
      exact hasSub_of_append _ b _
  | cons x xs ih =>
    have hx : hasUnionSelect (x :: (xs ++ ("union".data ++ (b ++ "select".data ++ e)))) =
        (unionHere (x :: (xs ++ ("union".data ++ (b ++ "select".data ++ e)))) ||
          hasUnionSelect (xs ++ ("union".data ++ (b ++ "select".data ++ e)))) := rfl
    rw [List.cons_append, hx, Bool.or_eq_true]
    right
    exact ih

/-! ## Claim theorems -/

/-- **C6** — The analytics query cache key derivation is deterministic and
insensitive to case and surrounding whitespace: for every question `q`, the
derived key equals the key derived from `q` trimmed and upper-cased
(equivalently, it is `query:` plus the SHA-256 hex digest of the trimmed,
lower-cased question), and two calls on the same input yield the same key. -/
theorem C6_queryKey_normalization (q : String) :
    generateCacheKey q = generateCacheKey (listStr (upperStr (jsTrim q.data))) ∧
    generateCacheKey q =
      "query:" ++ sha256Hex (utf8Bytes (listStr (jsTrim (lowerStr q.data)))) ∧
    generateCacheKey q = generateCacheKey q := by
  refine ⟨?_, rfl, rfl⟩
  unfold generateCacheKey
  have h : jsTrim (lowerStr (listStr (upperStr (jsTrim q.data))).data) =
      jsTrim (lowerStr q.data) := by
    show jsTrim (lowerStr (upperStr (jsTrim q.data))) = jsTrim (lowerStr q.data)
    rw [lowerStr_upperStr, lowerStr_jsTrim, jsTrim_idem]
  rw [h]

/-- **C9** (counterexample) — The claim quantifies over every context `c`,
including the empty one; but for `c = ""` the truthiness test in
`generateChatCacheKey` ignores the context, so the two keys differ. -/
theorem C9_claim_counterexample :
    generateChatCacheKey ("a" ++ ":" ++ "") none ≠
      generateChatCacheKey "a" (some "") := by
  decide

/-- **C9** (amended) — For every prompt `p` and *non-empty* context `c`,
`generateChatCacheKey (p ++ ":" ++ c)` with no context yields exactly the same
key as `generateChatCacheKey p c`, although the argument pairs are distinct:
the chat cache key derivation is not injective.  (With `c = ""` the context is
falsy and is ignored, so the keys differ — see the counterexample.) -/
theorem C9_chatKey_collision (p c : String) (hc : c ≠ "") :
    generateChatCacheKey (p ++ ":" ++ c) none = generateChatCacheKey p (some c) ∧
    (some c ≠ (none : Option String)) := by
  refine ⟨?_, by simp⟩
  have hce : c.isEmpty = false := by
    rw [Bool.eq_false_iff]
    intro h
    exact hc ((String.isEmpty_iff c).mp h)
  simp [generateChatCacheKey, hce]

theorem C9_chatKey_collision_witness :
    generateChatCacheKey ("a" ++ ":" ++ "b") none =
      generateChatCacheKey "a" (some "b") :=
  (C9_chatKey_collision "a" "b" (by decide)).1

/-- **C7** (counterexample) — The claim says a stored string that fails
JSON-parsing is returned raw; but the empty stored string is falsy, so
`getCachedData` answers `null` (not the raw `""`) even though parsing it
fails. -/
theorem C7_claim_counterexample :
    getCachedData (fun _ => .error "SyntaxError") (.ok (.vStr "")) = .vNull ∧
    (JSVal.vNull ≠ JSVal.vStr "") ∧
    (fun _ : String => (Except.error "SyntaxError" : Except String JSVal)) "" =
      .error "SyntaxError" :=
  ⟨rfl, fun h => JSVal.noConfusion h, rfl⟩

/-- **C7** (amended) — No cache operation failure ever propagates to the
caller: `getCachedData` returns null on any transport error, returns any
*non-empty* stored string raw (never throwing) when it fails JSON-parsing (an
empty stored string is falsy and yields null instead, cf. C10), and
`setCachedData` swallows every write failure, returning normally with the
store unchanged. -/
theorem C7_cache_failures_swallowed :
    (∀ (parse : String → Except String JSVal) (e : String),
      getCachedData parse (.error e) = .vNull) ∧
    (∀ (parse : String → Except String JSVal) (s msg : String),
      s ≠ "" → parse s = .error msg →
      getCachedData parse (.ok (.vStr s)) = .vStr s) ∧
    (∀ (stringify : JSVal → String) (key : String) (data : JSVal)
      (writeFails : Bool) (st : Store),
      ∃ st', setCachedData stringify key data writeFails st = .ok st' ∧
        (writeFails = true → st' = st)) := by
  refine ⟨fun _ _ => rfl, ?_, ?_⟩
  · intro parse s msg hs hp
    have hse : s.isEmpty = false := by
      rw [Bool.eq_false_iff]
      intro h
      exact hs ((String.isEmpty_iff s).mp h)
    simp [getCachedData, jsTruthy, hse, hp]
  · intro strf key data wf st
    cases wf with
    | false => exact ⟨storeSet st key (strf data), rfl, fun h => by cases h⟩
    | true => exact ⟨st, rfl, fun _ => rfl⟩

theorem C7_cache_failures_swallowed_witness :
    getCachedData (fun _ => .error "bad json") (.error "ECONNRESET") = .vNull ∧
    getCachedData (fun _ => .error "bad json") (.ok (.vStr "oops")) = .vStr "oops" :=
  ⟨C7_cache_failures_swallowed.1 _ "ECONNRESET",
   C7_cache_failures_swallowed.2.1 _ "oops" "bad json" (by decide) rfl⟩

/-- **C10** — `getCachedData` returns null not only when the key is absent or
a transport error occurs, but whenever the stored value is falsy: a cached
`0`, empty string, or `false` is returned as null, indistinguishable from a
cache miss (the result for an absent key). -/
theorem C10_falsy_values_are_misses (parse : String → Except String JSVal)
    (v : JSVal) (hv : jsTruthy v = false) :
    getCachedData parse (.ok v) = .vNull ∧
    getCachedData parse (.ok v) = getCachedData parse (.ok .vNull) := by
  have h1 : getCachedData parse (.ok v) = .vNull := by
    simp [getCachedData, hv]
  exact ⟨h1, by rw [h1]; rfl⟩

theorem C10_falsy_values_are_misses_witness :
    getCachedData (fun _ => .ok (.vObj [])) (.ok (.vNum 0)) = .vNull ∧
    getCachedData (fun _ => .ok (.vObj [])) (.ok (.vStr "")) = .vNull ∧
    getCachedData (fun _ => .ok (.vObj [])) (.ok (.vBool false)) = .vNull :=
  ⟨(C10_falsy_values_are_misses _ _ (by decide)).1,
   (C10_falsy_values_are_misses _ _ (by decide)).1,
   (C10_falsy_values_are_misses _ _ (by decide)).1⟩

/-- The dangerous-pattern condition of the claim, stated declaratively over
the comment-stripped text: a `;` followed (after whitespace) by one of the
blocked keywords, a same-line `union ... select` construct, or an `exec(` /
`execute(` occurrence. -/
def DangerousPattern (s : List Char) : Prop :=
  (∃ a ws kw b, kw ∈ dangerousKws ∧ (∀ c ∈ ws, jsWhite c = true) ∧
    s = a ++ ';' :: (ws ++ kw ++ b)) ∨
  (∃ a b e, (∀ c ∈ b, lineTerm c = false) ∧
    s = a ++ "union".data ++ (b ++ "select".data ++ e)) ∨
  (∃ a b, s = a ++ "exec(".data ++ b) ∨
  (∃ a b, s = a ++ "execute(".data ++ b)

/-- **C4** — For every SQL string whose comment-stripped form contains a
statement separator `;` followed by one of the blocked keywords (in
particular any text whose stripped form contains `; drop table x`), or a
`union ... select` construct, or `exec(` / `execute(`, `validateSQL` returns
invalid with the dangerous-operations error. -/
theorem C4_dangerous_sql_rejected (sql : String)
    (h : DangerousPattern (clientStripped sql)) :
    validateSQL sql = { valid := false,
                        error := some "SQL contains potentially dangerous operations" } := by
  have hcond : (hasSemiKw (clientStripped sql) ||
      hasUnionSelect (clientStripped sql) ||
      hasSub "exec(".data (clientStripped sql) ||
      hasSub "execute(".data (clientStripped sql)) = true := by
    rcases h with ⟨a, ws, kw, b, hkw, hws, hs⟩ | ⟨a, b, e, hb, hs⟩ |
      ⟨a, b, hs⟩ | ⟨a, b, hs⟩
    · simp [hasSemiKw_of_decomp hkw hws hs]
    · simp [hasUnionSelect_of_decomp hb hs]
    · simp only [Bool.or_eq_true]
      refine Or.inl (Or.inr ?_)
      rw [hs]
      exact hasSub_of_append "exec(".data a b
    · simp only [Bool.or_eq_true]
      refine Or.inr ?_
      rw [hs]
      exact hasSub_of_append "execute(".data a b
  unfold validateSQL
  rw [hcond]
  rfl

theorem C4_dangerous_sql_rejected_witness :
    DangerousPattern (clientStripped "select * from orders; DROP TABLE x") ∧
    validateSQL "select * from orders; DROP TABLE x" =
      { valid := false,
        error := some "SQL contains potentially dangerous operations" } := by
  have hd : DangerousPattern (clientStripped "select * from orders; DROP TABLE x") :=
    Or.inl ⟨"select * from orders".data, [' '], "drop".data, " table x".data,
      by decide, by decide, by decide⟩
  exact ⟨hd, C4_dangerous_sql_rejected _ hd⟩

/-- **C1** (counterexample) — A common-table-expression query: its stripped
form starts with `with` and matches none of the dangerous patterns, yet the
client-side `validateSQL` returns invalid (the claim asserts it is accepted). -/
theorem C1_claim_counterexample :
    (validateSQL "with t as (select 1) select * from t").valid = false ∧
    "with".data.isPrefixOf
      (jsTrim (clientStripped "with t as (select 1) select * from t")) = true ∧
    hasSemiKw (clientStripped "with t as (select 1) select * from t") = false ∧
    hasUnionSelect (clientStripped "with t as (select 1) select * from t") = false ∧
    hasSub "exec(".data (clientStripped "with t as (select 1) select * from t") = false ∧
    hasSub "execute(".data (clientStripped "with t as (select 1) select * from t") = false := by
  decide

/-- **C1** (amended) — The client-side `validateSQL` rejects every SQL text
whose trimmed, comment-stripped form starts with `with` (it accepts only a
`select` head), *unlike* the server-side `execute_sql` check, which accepts a
`with` (common-table-expression) head: the two validators are inconsistent on
this point. -/
theorem C1_with_head_rejected_client_only :
    (∀ sql : String,
      "with".data.isPrefixOf (jsTrim (clientStripped sql)) = true →
      (validateSQL sql).valid = false) ∧
    executeSqlCheck "with t as (select 1) select * from t" = .proceeds := by
  constructor
  · intro sql h
    rcases List.isPrefixOf_iff_prefix.mp h with ⟨rest, hrest⟩
    have hsel : "select".data.isPrefixOf (jsTrim (clientStripped sql)) = false := by
      rw [← hrest]
      rfl
    unfold validateSQL
    by_cases hd : (hasSemiKw (clientStripped sql) ||
        hasUnionSelect (clientStripped sql) ||
        hasSub "exec(".data (clientStripped sql) ||
        hasSub "execute(".data (clientStripped sql)) = true
    · rw [hd]
      rfl
    · rw [Bool.not_eq_true] at hd
      rw [hd, hsel]
      rfl
  · decide

theorem C1_with_head_rejected_client_only_witness :
    "with".data.isPrefixOf
      (jsTrim (clientStripped "with t as (select 1) select 1")) = true ∧
    (validateSQL "with t as (select 1) select 1").valid = false :=
  ⟨by decide, C1_with_head_rejected_client_only.1 _ (by decide)⟩

/-- The greeting condition of the claim, stated declaratively: the trimmed,
lower-cased question is exactly one of the greeting tokens. -/
def GreetingQuestion (q : String) : Prop :=
  ∃ g ∈ greetingTokens, jsTrim (lowerStr q.data) = g.data

/-- The general-question heuristic of the claim, stated declaratively: the
trimmed, lower-cased question starts with one of the question openers,
contains no data-indicating keyword, and the raw question does not match the
numeric-request pattern. -/
def GeneralQuestion (q : String) : Prop :=
  (∃ p ∈ generalStarts, ∃ rest, jsTrim (lowerStr q.data) = p.data ++ rest) ∧
  (¬ ∃ kw ∈ dataKeywords, ∃ a b, jsTrim (lowerStr q.data) = a ++ kw.data ++ b) ∧
  (¬ ∃ pat ∈ numericPats, ∃ a b, lowerStr q.data = a ++ pat.data ++ b)

/-- **C5** — For every question that is a whole-string, case-insensitive
greeting token, or that matches the general-question heuristic,
`generateSQLFromQuestion` returns the canned conversational result — empty
`sql`, one of the two fixed explanations, visualization type `table` — and
never reaches the external text-generation call (the `modelCall` outcome). -/
theorem C5_conversational_short_circuit (q : String)
    (h : GreetingQuestion q ∨ GeneralQuestion q) :
    generateSQLFromQuestion q =
      .canned { sql := "", explanation := greetingExplanation,
                visualizationType := some .table } ∨
    generateSQLFromQuestion q =
      .canned { sql := "", explanation := generalExplanation,
                visualizationType := some .table } := by
  rcases h with ⟨g, hg, heq⟩ | ⟨⟨p, hp, rest, hpre⟩, hkw, hnum⟩
  · have hgr : isGreetingL (jsTrim (lowerStr q.data)) = true := by
      unfold isGreetingL
      rw [List.any_eq_true]
      exact ⟨g, hg, decide_eq_true heq⟩
    left
    unfold generateSQLFromQuestion
    dsimp only
    rw [hgr]
    rfl
  · have hstart : generalStarts.any
        (fun p => p.data.isPrefixOf (jsTrim (lowerStr q.data))) = true := by
      rw [List.any_eq_true]
      refine ⟨p, hp, ?_⟩
      rw [List.isPrefixOf_iff_prefix]
      exact ⟨rest, hpre.symm⟩
    have hdk : hasDataKeywords (jsTrim (lowerStr q.data)) = false := by
      rw [Bool.eq_false_iff]
      intro hc
      rcases List.any_eq_true.mp hc with ⟨kw, hkwm, hsub⟩
      rcases exists_append_of_hasSub hsub with ⟨a, b, hab⟩
      exact hkw ⟨kw, hkwm, a, b, by rw [hab, List.append_assoc]⟩
    have had : isAskingForData q = false := by
      rw [Bool.eq_false_iff]
      intro hc
      rcases List.any_eq_true.mp hc with ⟨pat, hpm, hsub⟩
      rcases exists_append_of_hasSub hsub with ⟨a, b, hab⟩
      exact hnum ⟨pat, hpm, a, b, by rw [hab, List.append_assoc]⟩
    have hgen : isGeneralQuestion (jsTrim (lowerStr q.data)) q = true := by
      unfold isGeneralQuestion
      rw [hstart, hdk, had]
      rfl
    unfold generateSQLFromQuestion
    dsimp only
    rw [hgen]
    by_cases hgr : isGreetingL (jsTrim (lowerStr q.data)) = true
    · left
      rw [hgr]
      rfl
    · right
      rw [Bool.not_eq_true] at hgr
      rw [hgr]
      rfl

theorem C5_conversational_short_circuit_witness :
    GreetingQuestion "hello" ∧
    (generateSQLFromQuestion "hello" =
      .canned { sql := "", explanation := greetingExplanation,
                visualizationType := some .table } ∨
     generateSQLFromQuestion "hello" =
      .canned { sql := "", explanation := generalExplanation,
                visualizationType := some .table }) := by
  have hg : GreetingQuestion "hello" := ⟨"hello", by decide, by decide⟩
  exact ⟨hg, C5_conversational_short_circuit "hello" (Or.inl hg)⟩

/-- Concrete dependencies for the C2 scenario: the JSON parser yields an
analytics payload whose `data` field is an *empty* array. -/
def c2Deps : ChatDeps :=
  { parse := fun _ => .ok (.vObj [("data", .vArr [])])
    stringify := fun _ => "s"
    genChat := .ok (.vObj [("text", .vStr "t")])
    queryGetError := none
    chatGetError := none
    setFails := false }

/-- A store holding an analytics cache entry for the question. -/
def c2Store : Store := ⟨[(generateCacheKey "total orders", "entry")]⟩

/-- **C2** (counterexample) — The claim says the chat handler short-circuits
*exactly when* the analytics entry carries non-empty data, otherwise falling
through to the chat cache; but an entry with an *empty* `data` array also
short-circuits (the code only tests `data !== undefined`): here the handler
answers from the analytics entry, `cached: true`, despite `data = []`. -/
theorem C2_claim_counterexample :
    chatPOST c2Deps c2Store (some "total orders") false =
      (.analyticsCached (.vObj [("data", .vArr [])]), c2Store) ∧
    jsField (.vObj [("data", .vArr [])]) "data" = some (.vArr []) ∧
    isGreetingL (lowerStr (jsTrim "total orders".data)) = false ∧
    chatCachedFlag (.analyticsCached (.vObj [("data", .vArr [])])) = some true := by
  refine ⟨?_, rfl, by decide, rfl⟩
  rfl

/-- **C2** (amended) — In the chat handler, for every non-greeting question,
the request is short-circuited with the analytics-derived summary marked
`cached: true` exactly when the analytics cache lookup yields a truthy value
whose `data` property is defined (possibly empty or null); only otherwise does
the handler fall through to the chat-specific cache key, returning a truthy
chat hit as `cached: true` and generating (then caching) an answer on a miss. -/
theorem C2_chat_cache_decision (d : ChatDeps) (st : Store) (q : String)
    (includeData : Bool) (qv cv : JSVal)
    (hq : q.isEmpty = false)
    (hng : isGreetingL (lowerStr (jsTrim q.data)) = false)
    (hqv : qv = getCachedData d.parse
      (fetchFromStore st (generateCacheKey q) d.queryGetError))
    (hcv : cv = getCachedData d.parse
      (fetchFromStore st
        (generateChatCacheKey q (if includeData then some "with-data" else none))
        d.chatGetError)) :
    ((jsTruthy qv && (jsField qv "data").isSome) = true →
       chatPOST d st (some q) includeData = (.analyticsCached qv, st) ∧
       chatCachedFlag (.analyticsCached qv) = some true) ∧
    ((jsTruthy qv && (jsField qv "data").isSome) = false →
       (jsTruthy cv = true →
          chatPOST d st (some q) includeData = (.chatCached cv, st) ∧
          chatCachedFlag (.chatCached cv) = some true) ∧
       (jsTruthy cv = false →
          chatPOST d st (some q) includeData =
            chatGenerate d
              (generateChatCacheKey q (if includeData then some "with-data" else none))
              st)) := by
  subst hqv
  subst hcv
  have hred : chatPOST d st (some q) includeData =
      (if (jsTruthy (getCachedData d.parse
            (fetchFromStore st (generateCacheKey q) d.queryGetError)) &&
          (jsField (getCachedData d.parse
            (fetchFromStore st (generateCacheKey q) d.queryGetError)) "data").isSome) = true
       then (.analyticsCached (getCachedData d.parse
          (fetchFromStore st (generateCacheKey q) d.queryGetError)), st)
       else if jsTruthy (getCachedData d.parse
          (fetchFromStore st
            (generateChatCacheKey q (if includeData then some "with-data" else none))
            d.chatGetError)) = true
       then (.chatCached (getCachedData d.parse
          (fetchFromStore st
            (generateChatCacheKey q (if includeData then some "with-data" else none))
            d.chatGetError)), st)
       else chatGenerate d
          (generateChatCacheKey q (if includeData then some "with-data" else none))
          st) := by
    unfold chatPOST
    dsimp only
    rw [hq, hng]
    simp only [Bool.false_eq_true, if_false, Bool.not_false, if_true]
  constructor
  · intro hcond
    rw [hred, hcond]
    exact ⟨rfl, rfl⟩
  · intro hcond
    constructor
    · intro hchat
      rw [hred, hcond, hchat]
      exact ⟨by simp, rfl⟩
    · intro hchat
      rw [hred, hcond, hchat]
      simp

theorem C2_chat_cache_decision_witness :
    chatPOST c2Deps c2Store (some "total orders") false =
      (.analyticsCached (.vObj [("data", .vArr [])]), c2Store) ∧
    chatCachedFlag (.analyticsCached (.vObj [("data", .vArr [])])) = some true :=
  (C2_chat_cache_decision c2Deps c2Store "total orders" false
      (.vObj [("data", .vArr [])]) .vNull (by decide) (by decide) (by rfl) (by rfl)).1
    (by decide)

/-- One unfolding of the cursor-scan loop over a page schedule: from page `i`,
the loop deletes exactly the remaining pages and adds their sizes to the
running count. -/
theorem scanAndDelete_pages (pages : List (List String)) :
    ∀ (fuel i : Nat) (count : Nat) (deleted : List String),
      i < pages.length → pages.length - i ≤ fuel →
      scanAndDelete (pagesScan pages) fuel i count deleted =
        some (.ok (count + ((pages.drop i).flatten).length,
                   deleted ++ (pages.drop i).flatten)) := by
  intro fuel
  induction fuel with
  | zero => intro i count deleted hi hf; omega
  | succ fuel ih =>
    intro i count deleted hi hf
    have hscan : pagesScan pages i =
        .ok (if i + 1 = pages.length then 0 else i + 1) (pages.getD i []) := by
      unfold pagesScan
      rw [if_pos hi]
    have hkeys : pages.getD i [] = pages[i] := List.getD_eq_getElem pages [] hi
    have hdropi : pages.drop i = pages[i] :: pages.drop (i + 1) :=
      List.drop_eq_getElem_cons hi
    have hflat : (pages.drop i).flatten = pages[i] ++ (pages.drop (i + 1)).flatten := by
      rw [hdropi, List.flatten_cons]
    have hdel : (if (pages.getD i []).length > 0
        then deleted ++ pages.getD i [] else deleted) = deleted ++ pages[i] := by
      rw [hkeys]
      by_cases h0 : pages[i].length > 0
      · rw [if_pos h0]
      · rw [if_neg h0]
        have : pages[i] = [] := by
          cases hp : pages[i] with
          | nil => rfl
          | cons x xs => rw [hp] at h0; simp at h0
        rw [this, List.append_nil]
    have hcnt : (if (pages.getD i []).length > 0
        then count + (pages.getD i []).length else count) =
        count + pages[i].length := by
      rw [hkeys]
      by_cases h0 : pages[i].length > 0
      · rw [if_pos h0]
      · rw [if_neg h0]
        omega
    unfold scanAndDelete
    rw [hscan]
    dsimp only
    rw [hdel, hcnt]
    by_cases hlast : i + 1 = pages.length
    · rw [if_pos hlast, if_pos rfl]
      have hdrop1 : pages.drop (i + 1) = [] := by
        rw [hlast, List.drop_length]
      simp [hflat, hdrop1]
    · rw [if_neg hlast]
      have hne : ¬ (i + 1 = 0) := by omega
      rw [if_neg hne]
      have hi1 : i + 1 < pages.length := by omega
      have hf1 : pages.length - (i + 1) ≤ fuel := by omega
      rw [ih (i + 1) (count + pages[i].length) (deleted ++ pages[i]) hi1 hf1]
      rw [hflat]
      simp [List.length_append, List.append_assoc]
      omega

/-- The full run of the loop over a page schedule, from the initial cursor. -/
theorem scanAndDelete_pages_run (pages : List (List String)) (fuel : Nat)
    (hf : pages.length < fuel) :
    scanAndDelete (pagesScan pages) fuel 0 0 [] =
      some (.ok (pages.flatten.length, pages.flatten)) := by
  cases pages with
  | nil =>
    cases fuel with
    | zero => omega
    | succ f =>
      unfold scanAndDelete pagesScan
      simp
  | cons p rest =>
    have h := scanAndDelete_pages (p :: rest) fuel 0 0 []
      (by simp) (by omega)
    simpa using h

/-- **C3** — The prefix-deletion loop cursor-scans the keyspace, batch-deletes
the matches until the cursor returns to its start value, and returns the total
number of keys deleted (the count equals the number of deleted keys); when the
remote store does not support cursor-scan (a scan failure whose message marks
SCAN as unsupported) it returns 0 rather than failing; and the DELETE
/cache/clear handler applies the loop to both `query:*` and `chat:*` and
answers success with the combined deletedCount. -/
theorem C3_prefix_deletion (pages qPages cPages : List (List String))
    (fuel fuel' cursor count : Nat) (deleted : List String) (msg : String)
    (hfuel : pages.length < fuel)
    (hmsg : scanUnsupported msg = true) :
    scanAndDelete (pagesScan pages) fuel 0 0 [] =
      some (.ok (pages.flatten.length, pages.flatten)) ∧
    scanAndDelete (fun _ => .fail msg) (fuel' + 1) cursor count deleted =
      some (.ok (0, deleted)) ∧
    deleteCacheDELETE
      (fun pat => if pat = "query:*" then pagesScan qPages else pagesScan cPages)
      (qPages.length + cPages.length + 1) =
      some (.okJson (.vObj
        [("success", .vBool true),
         ("message", .vStr (if qPages.flatten.length + cPages.flatten.length > 0 then
            "All cache cleared successfully (" ++
              toString (qPages.flatten.length + cPages.flatten.length) ++ " entries)"
          else "Cache cleared (or no cache entries found)")),
         ("deletedCount",
          .vNum (Int.ofNat (qPages.flatten.length + cPages.flatten.length)))])) := by
  refine ⟨scanAndDelete_pages_run pages fuel hfuel, ?_, ?_⟩
  · simp [scanAndDelete, hmsg]
  · have hq : ((fun pat => if pat = "query:*" then pagesScan qPages
        else pagesScan cPages) "query:*") = pagesScan qPages := by simp
    have hc : ((fun pat => if pat = "query:*" then pagesScan qPages
        else pagesScan cPages) "chat:*") = pagesScan cPages := by simp
    unfold deleteCacheDELETE
    rw [hq, hc,
        scanAndDelete_pages_run qPages _ (by omega),
        scanAndDelete_pages_run cPages _ (by omega)]

theorem C3_prefix_deletion_witness :
    scanAndDelete (pagesScan [["query:a", "query:b"], ["query:c"]]) 3 0 0 [] =
      some (.ok (3, ["query:a", "query:b", "query:c"])) ∧
    scanAndDelete (fun _ => .fail "SCAN not supported") 1 0 7 ["query:x"] =
      some (.ok (0, ["query:x"])) ∧
    deleteCacheDELETE
      (fun pat => if pat = "query:*" then pagesScan [["query:a"]]
        else pagesScan [["chat:b"], ["chat:c"]]) 4 =
      some (.okJson (.vObj
        [("success", .vBool true),
         ("message", .vStr "All cache cleared successfully (3 entries)"),
         ("deletedCount", .vNum (Int.ofNat 3))])) := by
  have h := C3_prefix_deletion [["query:a", "query:b"], ["query:c"]]
    [["query:a"]] [["chat:b"], ["chat:c"]] 3 0 0 7 ["query:x"]
    "SCAN not supported" (by decide) (by decide)
  refine ⟨h.1, h.2.1, ?_⟩
  have h3 := h.2.2
  simpa using h3

theorem storeGet_storeSet_same (st : Store) (k v : String) :
    storeGet (storeSet st k v) k = some v := by
  simp [storeGet, storeSet, List.find?]

/-- Overriding `cached` in the spread of a serialized `QueryResponse` yields
the serialization of the record with `cached` flipped. -/
theorem jsSpreadWith_qr (r : QueryResponse) :
    jsSpreadWith (qrToJSVal r) "cached" (.vBool true) =
      qrToJSVal { r with cached := true } := by
  rfl

/-- The cache-hit path of the analytics handler: a non-greeting question whose
stored entry parses to a truthy value answers the spread of that value with
`cached: true`, with neither the generator nor the executor invoked. -/
theorem analyticsPOST_hit (d : AnalyticsDeps) (st : Store) (q s : String)
    (v : JSVal)
    (hq : q.isEmpty = false)
    (hng : isGreetingL (lowerStr (jsTrim q.data)) = false)
    (hge : d.getError = none)
    (hget : storeGet st (generateCacheKey q) = some s)
    (hs : s.isEmpty = false)
    (hp : d.parse s = .ok v)
    (hv : jsTruthy v = true) :
    analyticsPOST d st (some q) =
      ⟨.okJson (jsSpreadWith v "cached" (.vBool true)), st, 0, 0⟩ := by
  have hgcd : getCachedData d.parse
      (fetchFromStore st (generateCacheKey q) d.getError) = v := by
    rw [hge]
    unfold fetchFromStore
    rw [hget]
    simp [getCachedData, jsTruthy, hs, hp]
  unfold analyticsPOST
  dsimp only
  rw [hq, hng]
  simp only [Bool.false_eq_true, if_false, Bool.not_false, if_true]
  rw [hgcd, hv]
  rfl

/-- The record built on the success path of the analytics handler
(part_004 lines 148-156). -/
def mkQueryResponse (d : AnalyticsDeps) (gres : SQLGenerationResult)
    (rows : List JSVal) (cols : List String) : QueryResponse :=
  { sql := gres.sql
    explanation := gres.explanation
    data := rows
    columns := cols
    visualizationType := gres.visualizationType.getD .table
    cached := false
    executionTime := d.t1 - d.t0 }

/-- The miss-generate-execute-cache path of the analytics handler. -/
theorem analyticsPOST_miss_success (d : AnalyticsDeps) (st : Store) (q : String)
    (gres : SQLGenerationResult) (rows : List JSVal) (cols : List String)
    (hq : q.isEmpty = false)
    (hng : isGreetingL (lowerStr (jsTrim q.data)) = false)
    (hge : d.getError = none)
    (hmiss : storeGet st (generateCacheKey q) = none)
    (hgen : d.gen = .ok gres)
    (hs1 : gres.sql.isEmpty = false)
    (hs2 : (jsTrim gres.sql.data).isEmpty = false)
    (hexec : d.exec = .ok (rows, cols))
    (hsf : d.setFails = false) :
    analyticsPOST d st (some q) =
      ⟨.okJson (qrToJSVal (mkQueryResponse d gres rows cols)),
       storeSet st (generateCacheKey q)
         (d.stringify (qrToJSVal (mkQueryResponse d gres rows cols))),
       1, 1⟩ := by
  have hgcd : getCachedData d.parse
      (fetchFromStore st (generateCacheKey q) d.getError) = .vNull := by
    rw [hge]
    unfold fetchFromStore
    rw [hmiss]
    rfl
  unfold analyticsPOST
  dsimp only
  rw [hq, hng]
  simp only [Bool.false_eq_true, if_false, Bool.not_false, if_true]
  rw [hgcd]
  simp only [jsTruthy, Bool.false_eq_true, if_false]
  rw [hgen]
  dsimp only
  rw [hs1, hs2]
  simp only [Bool.or_self, Bool.false_eq_true, if_false]
  rw [hexec]
  dsimp only
  rw [hsf]
  rfl

/-- **C8** — In the analytics handler: (a) every non-greeting question whose
derived query key holds a (truthy-parsing, non-empty) entry terminates at the
cache check, answering the cached payload with `cached: true` and zero
generator/executor calls; (b) for greeting questions the cache check is
skipped — the response is independent of the store and the generator is
always invoked; (c) a successful uncached run answers `cached: false` and
writes the response, so that an immediate identical second request answers
the same payload with `cached: true` from the cache. -/
theorem C8_analytics_cache_roundtrip :
    (∀ (d : AnalyticsDeps) (st : Store) (q s : String) (v : JSVal),
      q.isEmpty = false →
      isGreetingL (lowerStr (jsTrim q.data)) = false →
      d.getError = none →
      storeGet st (generateCacheKey q) = some s →
      s.isEmpty = false →
      d.parse s = .ok v →
      jsTruthy v = true →
      analyticsPOST d st (some q) =
        ⟨.okJson (jsSpreadWith v "cached" (.vBool true)), st, 0, 0⟩) ∧
    (∀ (d : AnalyticsDeps) (st st' : Store) (q : String),
      q.isEmpty = false →
      isGreetingL (lowerStr (jsTrim q.data)) = true →
      (analyticsPOST d st (some q)).response =
        (analyticsPOST d st' (some q)).response ∧
      (analyticsPOST d st (some q)).genCalls = 1) ∧
    (∀ (d : AnalyticsDeps) (st : Store) (q : String)
      (gres : SQLGenerationResult) (rows : List JSVal) (cols : List String),
      q.isEmpty = false →
      isGreetingL (lowerStr (jsTrim q.data)) = false →
      d.getError = none →
      storeGet st (generateCacheKey q) = none →
      d.gen = .ok gres →
      gres.sql.isEmpty = false →
      (jsTrim gres.sql.data).isEmpty = false →
      d.exec = .ok (rows, cols) →
      d.setFails = false →
      d.parse (d.stringify (qrToJSVal (mkQueryResponse d gres rows cols))) =
        .ok (qrToJSVal (mkQueryResponse d gres rows cols)) →
      (d.stringify (qrToJSVal (mkQueryResponse d gres rows cols))).isEmpty = false →
      (analyticsPOST d st (some q)).response =
        .okJson (qrToJSVal (mkQueryResponse d gres rows cols)) ∧
      (mkQueryResponse d gres rows cols).cached = false ∧
      (analyticsPOST d st (some q)).genCalls = 1 ∧
      analyticsPOST d (analyticsPOST d st (some q)).store (some q) =
        ⟨.okJson (qrToJSVal { mkQueryResponse d gres rows cols with cached := true }),
         (analyticsPOST d st (some q)).store, 0, 0⟩) := by
  refine ⟨analyticsPOST_hit, ?_, ?_⟩
  · intro d st st' q hq hgr
    have hred : ∀ stx : Store, analyticsPOST d stx (some q) =
        (match d.gen with
         | .error e => ⟨.error500 e, stx, 1, 0⟩
         | .ok sqlResult =>
           if sqlResult.sql.isEmpty || (jsTrim sqlResult.sql.data).isEmpty then
             ⟨.okJson (convPayload sqlResult.explanation (d.t1 - d.t0)), stx, 1, 0⟩
           else
             match d.exec with
             | .error e => ⟨.error500 e, stx, 1, 1⟩
             | .ok (rows, cols) =>
               ⟨.okJson (qrToJSVal (mkQueryResponse d sqlResult rows cols)),
                match setCachedData d.stringify (generateCacheKey q)
                    (qrToJSVal (mkQueryResponse d sqlResult rows cols))
                    d.setFails stx with
                | .ok s => s
                | .error _ => stx,
                1, 1⟩) := by
      intro stx
      unfold analyticsPOST
      dsimp only
      rw [hq, hgr]
      simp only [Bool.false_eq_true, if_false, Bool.not_true]
      rfl
    rw [hred st, hred st']
    cases d.gen with
    | error e => exact ⟨rfl, rfl⟩
    | ok r =>
      dsimp only
      by_cases hsq : (r.sql.isEmpty || (jsTrim r.sql.data).isEmpty) = true
      · rw [hsq]
        simp
      · rw [Bool.not_eq_true] at hsq
        rw [hsq]
        simp only [Bool.false_eq_true, if_false]
        cases d.exec with
        | error e => exact ⟨rfl, rfl⟩
        | ok rc =>
          cases rc with
          | mk rows cols => exact ⟨rfl, rfl⟩
  · intro d st q gres rows cols hq hng hge hmiss hgen hs1 hs2 hexec hsf hrt hne
    have h1 := analyticsPOST_miss_success d st q gres rows cols
      hq hng hge hmiss hgen hs1 hs2 hexec hsf
    refine ⟨by rw [h1], rfl, by rw [h1], ?_⟩
    rw [h1]
    dsimp only
    have h2 := analyticsPOST_hit d
      (storeSet st (generateCacheKey q)
        (d.stringify (qrToJSVal (mkQueryResponse d gres rows cols))))
      q (d.stringify (qrToJSVal (mkQueryResponse d gres rows cols)))
      (qrToJSVal (mkQueryResponse d gres rows cols))
      hq hng hge (storeGet_storeSet_same _ _ _) hne hrt rfl
    rw [h2, jsSpreadWith_qr]

/-- The generator output of the end-to-end metric scenario of the spec. -/
def c8Gres : SQLGenerationResult :=
  { sql := "SELECT COUNT(*) AS total FROM olist_orders"
    explanation := "Counts the rows in olist_orders"
    visualizationType := some .metric }

/-- The cached payload of that scenario. -/
def c8Resp : QueryResponse :=
  { sql := "SELECT COUNT(*) AS total FROM olist_orders"
    explanation := "Counts the rows in olist_orders"
    data := [.vObj [("total", .vNum 99441)]]
    columns := ["total"]
    visualizationType := .metric
    cached := false
    executionTime := 5 }

/-- Concrete dependencies of that scenario: the JSON codec round-trips the
payload, generation and execution succeed, the cache transport is healthy. -/
def c8Deps : AnalyticsDeps :=
  { parse := fun _ => .ok (qrToJSVal c8Resp)
    stringify := fun _ => "payload"
    gen := .ok c8Gres
    exec := .ok ([.vObj [("total", .vNum 99441)]], ["total"])
    getError := none
    setFails := false
    t0 := 0
    t1 := 5 }

theorem C8_analytics_cache_roundtrip_witness :
    ((analyticsPOST c8Deps ⟨[]⟩ (some "What is the total number of orders?")).response =
      .okJson (qrToJSVal (mkQueryResponse c8Deps c8Gres
        [.vObj [("total", .vNum 99441)]] ["total"])) ∧
     (mkQueryResponse c8Deps c8Gres [.vObj [("total", .vNum 99441)]] ["total"]).cached = false ∧
     (analyticsPOST c8Deps ⟨[]⟩ (some "What is the total number of orders?")).genCalls = 1 ∧
     analyticsPOST c8Deps
        (analyticsPOST c8Deps ⟨[]⟩ (some "What is the total number of orders?")).store
        (some "What is the total number of orders?") =
       ⟨.okJson (qrToJSVal { mkQueryResponse c8Deps c8Gres
           [.vObj [("total", .vNum 99441)]] ["total"] with cached := true }),
        (analyticsPOST c8Deps ⟨[]⟩ (some "What is the total number of orders?")).store,
        0, 0⟩) ∧
    ((analyticsPOST c8Deps ⟨[]⟩ (some "hello")).response =
       (analyticsPOST c8Deps ⟨[("k", "v")]⟩ (some "hello")).response ∧
     (analyticsPOST c8Deps ⟨[]⟩ (some "hello")).genCalls = 1) :=
  ⟨C8_analytics_cache_roundtrip.2.2 c8Deps ⟨[]⟩
      "What is the total number of orders?" c8Gres
      [.vObj [("total", .vNum 99441)]] ["total"]
      (by decide) (by decide) rfl rfl rfl (by decide) (by decide) rfl rfl
      rfl (by decide),
   C8_analytics_cache_roundtrip.2.1 c8Deps ⟨[]⟩ ⟨[("k", "v")]⟩ "hello"
      (by decide) (by decide)⟩
